import Mathlib

/-!
Verification development for the `webpage/auth` module of the mercuryland
repository: session-token issue/verify/renewal (`mod.rs`, `tick.rs`) and the
Google JWKS signing-key cache with its login handler (`google.rs`).

Modelling conventions:
* Unix timestamps and monotonic instants are both `Nat` seconds; each handler
  runs at a single instant `now` (the code reads the clock once per step).
* The symmetric session MAC is abstracted: `Token.signed p` is a token whose
  HS256 MAC under the process-wide secret checks out and whose payload is `p`;
  `Token.malformed` is every other byte string.
* RSA signatures on identity tokens are abstracted: the token records the
  verification key of the keypair that signed it (`signer`); signature
  verification against key `k` succeeds iff `signer = k`.
* Network and file I/O are passed in explicitly: a `FetchOutcome` stands for
  the result of the single HTTPS GET a refresh performs, and the audit-log
  write of the login handler is a boolean outcome parameter.
-/

namespace Mercury

/-! ### Session token codec — `src/webpage/auth/mod.rs` -/

/-- Session claims (`Claims` in `mod.rs`): `iat`/`exp` are required `u64`
fields; `sub`, `email`, `name` are optional with serde defaults. -/
structure Claims where
  iat : Nat
  exp : Nat
  sub : Option String
  email : Option String
  name : Option String
deriving DecidableEq

/-- The JSON payload carried by a (MAC-valid) session token: each of the five
claim fields may be present or absent. -/
structure SessionPayload where
  iat : Option Nat
  exp : Option Nat
  sub : Option String
  email : Option String
  name : Option String
deriving DecidableEq

/-- A session token string: either correctly MAC'd under the process secret
with some payload, or anything else (wrong MAC, garbage, foreign key). -/
inductive Token where
  | signed (payload : SessionPayload)
  | malformed
deriving DecidableEq

/-- Serde serialization of `Claims`: required fields are emitted, optional
fields are emitted as-is (absent maps to `none`). -/
def serializeClaims (c : Claims) : SessionPayload :=
  ⟨some c.iat, some c.exp, c.sub, c.email, c.name⟩

/-- Serde deserialization of `Claims` from a token payload: fails when `iat`
or `exp` is missing; the `#[serde(default)]` options default to `none`. -/
def deserializeClaims (p : SessionPayload) : Option Claims :=
  match p.iat, p.exp with
  | some i, some e => some ⟨i, e, p.sub, p.email, p.name⟩
  | _, _ => none

/-- `jsonwebtoken::decode::<Claims>` with the process secret and a validation
that has `validate_exp = false`, `validate_nbf = false`: MAC check plus claim
deserialization only (the required `exp` spec-claim check is subsumed by the
struct's required `exp` field). -/
def sessionDecode (t : Token) : Option Claims :=
  match t with
  | .signed p => deserializeClaims p
  | .malformed => none

/-- `issue_token` in `mod.rs`: HS256-encode the claims with the process
secret. Serialization of `Claims` cannot fail, so the `Result` is collapsed. -/
def issue_token (c : Claims) : Token :=
  .signed (serializeClaims c)

/-- `verify` in `mod.rs`: decode with expiry validation disabled, then apply
the hand-rolled strict window rule `iat < now && exp > now`. -/
def verify (t : Token) (now : Nat) : Option Claims :=
  match sessionDecode t with
  | none => none
  | some claims => if claims.iat < now ∧ claims.exp > now then some claims else none

/-- `SessionResponse` in `mod.rs`. -/
structure SessionResponse where
  token : Token
  email : Option String
  name : Option String
deriving DecidableEq

/-- `SessionResponse::from_claims`. -/
def SessionResponse.from_claims (token : Token) (claims : Claims) : SessionResponse :=
  ⟨token, claims.email, claims.name⟩

/-! ### Session renewal — `src/webpage/auth/tick.rs` -/

/-- The `/api/auth/tick` handler: verify the presented token at `now`; on
success reset `iat := now`, `exp := now + 3600`, re-sign and respond; on
failure answer 403 with no token (`none`). -/
def tick_handler (token : Token) (now : Nat) : Option SessionResponse :=
  match verify token now with
  | some claims =>
      let claims' : Claims := { claims with iat := now, exp := now + 3600 }
      some (SessionResponse.from_claims (issue_token claims') claims')
  | none => none

/-! ### Google JWKS key cache and login — `src/webpage/auth/google.rs` -/

/-- JWT signing algorithms relevant to this code base
(`jsonwebtoken::Algorithm`, elided to the tags the model needs). -/
inductive Algorithm where
  | HS256
  | RS256
  | RS384
  | ES256
deriving DecidableEq

/-- Is a character in the base64url alphabet. -/
def isB64UrlChar (c : Char) : Bool :=
  c.isAlphanum || c = '-' || c = '_'

/-- An RSA verification key as held by the cache, identified by its
modulus/exponent components (`jsonwebtoken::DecodingKey`, opaque key
material). -/
structure DecodingKey where
  n : String
  e : String
deriving DecidableEq

/-- `DecodingKey::from_rsa_components`: fails iff either component is not
valid base64url text (the library decodes both before building the key). -/
def from_rsa_components (n e : String) : Option DecodingKey :=
  if n.data.all isB64UrlChar ∧ e.data.all isB64UrlChar then some ⟨n, e⟩ else none

/-- The cache's `HashMap<String, DecodingKey>`, as an association list with
replace-on-insert semantics. -/
abbrev KeyMap := List (String × DecodingKey)

/-- `HashMap::get`. -/
def KeyMap.lookup (m : KeyMap) (kid : String) : Option DecodingKey :=
  match m with
  | [] => none
  | (k, v) :: rest => if k = kid then some v else KeyMap.lookup rest kid

/-- `HashMap::insert`: replaces the binding for an existing key. -/
def KeyMap.insert (m : KeyMap) (kid : String) (v : DecodingKey) : KeyMap :=
  match m with
  | [] => [(kid, v)]
  | (k, v') :: rest =>
      if k = kid then (kid, v) :: rest else (k, v') :: KeyMap.insert rest kid v

/-- `GoogleCertCache`: the key mapping plus an optional absolute freshness
deadline (an `Instant`). -/
structure GoogleCertCache where
  keys : KeyMap
  expires_at : Option Nat
deriving DecidableEq

/-- `GoogleCertCache::is_fresh`: the deadline is present and strictly after
the current instant. -/
def GoogleCertCache.is_fresh (c : GoogleCertCache) (now : Nat) : Bool :=
  match c.expires_at with
  | some d => decide (now < d)
  | none => false

/-- One entry of the fetched JWK set (`GoogleJwk`): `kid`, `n`, `e` required,
`alg` and `kty` optional. -/
structure GoogleJwk where
  kid : String
  n : String
  e : String
  alg : Option String
  kty : Option String
deriving DecidableEq

/-- The decoded JWKS response body (`GoogleJwkSet`). -/
structure GoogleJwkSet where
  keys : List GoogleJwk
deriving DecidableEq

/-- The process-wide error type (`crate::error::ServerError`), restricted to
the variants this module produces. `reqwest` covers transport failures and
response-body decode failures (both arrive as `reqwest::Error`); `jwt` covers
`jsonwebtoken` errors; `internal` carries the handler's own messages. -/
inductive ServerError where
  | reqwest
  | jwt
  | internal (msg : String)
deriving DecidableEq

/-- Outcome of the single HTTPS GET of a refresh: transport failure, or a
response with an optional `Cache-Control` header value and a body that either
JSON-decodes to a JWK set or fails to decode. -/
inductive FetchOutcome where
  | transportError
  | response (cacheControl : Option String) (body : Option GoogleJwkSet)
deriving DecidableEq

/-- `str::split(',')` on the header value. -/
def splitOnCommaAux (cur : List Char) : List Char → List (List Char)
  | [] => [cur.reverse]
  | c :: rest =>
      if c = ',' then cur.reverse :: splitOnCommaAux [] rest
      else splitOnCommaAux (c :: cur) rest

/-- Split a character list at commas. -/
def splitOnComma (l : List Char) : List (List Char) :=
  splitOnCommaAux [] l

/-- `str::trim`. -/
def trimChars (l : List Char) : List Char :=
  ((l.dropWhile Char.isWhitespace).reverse.dropWhile Char.isWhitespace).reverse

/-- Strip the literal `max-age=` from the front of a part, if present. -/
def afterMaxAge : List Char → Option (List Char)
  | 'm' :: 'a' :: 'x' :: '-' :: 'a' :: 'g' :: 'e' :: '=' :: rest => some rest
  | _ => none

/-- Digit-string accumulator for `u64::from_str`: `none` on any non-digit. -/
def digitsToNat (acc : Nat) : List Char → Option Nat
  | [] => some acc
  | c :: rest =>
      if c.isDigit then digitsToNat (acc * 10 + (c.toNat - 48)) rest else none

/-- `str::parse::<u64>()`: an optional leading `+`, then one or more digits,
rejecting empty strings and values that overflow `u64`. -/
def parse_u64 (l : List Char) : Option Nat :=
  let l' := match l with
    | '+' :: rest => rest
    | _ => l
  match l' with
  | [] => none
  | _ =>
      match digitsToNat 0 l' with
      | some v => if v < 2 ^ 64 then some v else none
      | none => none

/-- `cache_max_age` in `google.rs`: from the optional `Cache-Control` header
value, the first comma-separated part that trimmed starts with `max-age=` and
whose remainder parses as `u64`, in seconds. -/
def cache_max_age (cc : Option String) : Option Nat :=
  cc.bind fun value =>
    (splitOnComma value.data).findSome? fun part =>
      match afterMaxAge (trimChars part) with
      | some seconds => parse_u64 seconds
      | none => none

/-- `GOOGLE_CERTS_FALLBACK_TTL` (3600 seconds). -/
def GOOGLE_CERTS_FALLBACK_TTL : Nat := 3600

/-- The loop body of `refresh_google_keys`: skip entries whose `kty` is not
`"RSA"` or whose `alg` is not `"RS256"`; build a key from each surviving
entry, failing the whole pass on a malformed component pair. -/
def buildKeysAux (acc : KeyMap) : List GoogleJwk → Except ServerError KeyMap
  | [] => .ok acc
  | jwk :: rest =>
      if jwk.kty ≠ some "RSA" then buildKeysAux acc rest
      else if jwk.alg ≠ some "RS256" then buildKeysAux acc rest
      else
        match from_rsa_components jwk.n jwk.e with
        | some decoding_key => buildKeysAux (acc.insert jwk.kid decoding_key) rest
        | none => .error .jwt

/-- `refresh_google_keys`: on transport or body-decode failure return the
error with the cache untouched; otherwise compute the TTL from the header
(falling back to one hour), build the filtered key map, and on success
replace the mapping wholesale and set `expires_at := now + ttl`. -/
def refresh_google_keys (fetch : FetchOutcome) (cache : GoogleCertCache) (now : Nat) :
    Except ServerError Unit × GoogleCertCache :=
  match fetch with
  | .transportError => (.error .reqwest, cache)
  | .response cc body =>
      let ttl := (cache_max_age cc).getD GOOGLE_CERTS_FALLBACK_TTL
      match body with
      | none => (.error .reqwest, cache)
      | some jwk_set =>
          match buildKeysAux [] jwk_set.keys with
          | .error e => (.error e, cache)
          | .ok keys => (.ok (), { keys := keys, expires_at := some (now + ttl) })

/-- Result of `get_decoding_key`, with the cache state after the call and the
number of refresh attempts performed. -/
structure GdkResult where
  result : Except ServerError DecodingKey
  cache : GoogleCertCache
  refreshes : Nat

/-- `get_decoding_key`: serve from the cache when it is fresh and holds the
kid; otherwise refresh once (propagating its failure), then look the kid up
again — without a freshness re-check — and report a missing kid as the
unknown-signing-key error. -/
def get_decoding_key (kid : String) (cache : GoogleCertCache) (fetch : FetchOutcome)
    (now : Nat) : GdkResult :=
  match (if cache.is_fresh now then cache.keys.lookup kid else none) with
  | some key => ⟨.ok key, cache, 0⟩
  | none =>
      match refresh_google_keys fetch cache now with
      | (.error e, cache') => ⟨.error e, cache', 1⟩
      | (.ok _, cache') =>
          match cache'.keys.lookup kid with
          | some key => ⟨.ok key, cache', 1⟩
          | none =>
              ⟨.error (.internal ("Unable to find Google signing key for kid " ++ kid)),
               cache', 1⟩

/-- The compile-time `GOOGLE_SSO_CLIENT_ID` environment constant. Its actual
value is fixed at build time and opaque; the model pins an arbitrary string,
and no theorem depends on which one. -/
def GOOGLE_SSO_CLIENT_ID : String := "google-sso-client-id"

/-- The two accepted issuer strings built by the handler. -/
def googleIssuers : List String :=
  ["https://accounts.google.com", "accounts.google.com"]

/-- `jsonwebtoken::Validation`, restricted to the fields this module touches.
`Validation::new` also installs `exp` as a required spec claim and a 60-second
leeway. -/
structure Validation where
  algorithms : List Algorithm
  aud : Option (List String)
  iss : Option (List String)
  required_exp : Bool
  validate_exp : Bool
  validate_nbf : Bool
  leeway : Nat

/-- `Validation::new(alg)`. -/
def Validation.new (alg : Algorithm) : Validation :=
  { algorithms := [alg], aud := none, iss := none,
    required_exp := true, validate_exp := true, validate_nbf := false, leeway := 60 }

/-- The validation the login handler builds: `Validation::new(RS256)` with the
audience set to the single client id and the issuer set to the two Google
issuer strings. -/
def googleValidation : Validation :=
  let validation := Validation.new .RS256
  { validation with
      aud := some [GOOGLE_SSO_CLIENT_ID],
      iss := some googleIssuers }

/-- Claim payload of an identity token as serde sees it for `GoogleClaims`:
`sub` required, the rest optional with defaults. -/
structure GooglePayload where
  sub : Option String
  email : Option String
  email_verified : Option Bool
  name : Option String
deriving DecidableEq

/-- `GoogleClaims` in `google.rs`. -/
structure GoogleClaims where
  sub : String
  email : Option String
  email_verified : Option Bool
  name : Option String
deriving DecidableEq

/-- Deserialize `GoogleClaims` from the payload: fails iff `sub` is missing. -/
def googleDeserialize (p : GooglePayload) : Option GoogleClaims :=
  match p.sub with
  | some s => some ⟨s, p.email, p.email_verified, p.name⟩
  | none => none

/-- A structurally well-formed externally-issued identity token. `signer` is
the verification key of the keypair whose signature the token carries
(signature verification against `k` succeeds iff `signer = k`); `aud`, `iss`
and `exp` are the registered claims the validation inspects. -/
structure IdToken where
  header_alg : Algorithm
  header_kid : Option String
  signer : DecodingKey
  aud : Option String
  iss : Option String
  exp : Option Nat
  payload : GooglePayload
deriving DecidableEq

/-- Registered-claim validation of `jsonwebtoken` for a `Validation` value:
required `exp` presence, expiry with leeway, audience match, issuer match. -/
def validateRegistered (t : IdToken) (v : Validation) (now : Nat) : Bool :=
  (!v.required_exp || t.exp.isSome) &&
  (!v.validate_exp ||
    (match t.exp with
     | some e => decide (now ≤ e + v.leeway)
     | none => true)) &&
  (match v.aud with
   | some auds =>
       (match t.aud with
        | some a => decide (a ∈ auds)
        | none => false)
   | none => true) &&
  (match v.iss with
   | some isss =>
       (match t.iss with
        | some i => decide (i ∈ isss)
        | none => false)
   | none => true)

/-- `jsonwebtoken::decode::<GoogleClaims>` with key `key` and validation `v`:
header algorithm must be allowed, the signature must verify under `key`, the
claims must deserialize, and the registered claims must validate. -/
def decodeGoogle (t : IdToken) (key : DecodingKey) (v : Validation) (now : Nat) :
    Except ServerError GoogleClaims :=
  if t.header_alg ∈ v.algorithms then
    if t.signer = key then
      match googleDeserialize t.payload with
      | some claims =>
          if validateRegistered t v now then .ok claims else .error .jwt
      | none => .error .jwt
    else .error .jwt
  else .error .jwt

/-- Result of the login handler run: the response or error, the cache state
afterwards, and the number of key refreshes performed. -/
structure GoogleHandlerResult where
  result : Except ServerError SessionResponse
  cache : GoogleCertCache
  refreshes : Nat

/-- The `/api/auth/google` handler: extract the kid from the credential's
header, resolve the decoding key through the cache, decode the credential
under the fixed RS256/audience/issuer validation, apply the email business
checks, then mint a session token valid for `[now, now + 3600]` and record
the login. `audit` is the outcome of the audit-log file write (`true` means
the write succeeded); the credential is given in parsed form, so
`decode_header` failures are out of frame. -/
def googleHandler (credential : IdToken) (cache : GoogleCertCache) (fetch : FetchOutcome)
    (now : Nat) (audit : Bool) : GoogleHandlerResult :=
  match credential.header_kid with
  | none => ⟨.error (.internal "Google credential is missing kid"), cache, 0⟩
  | some kid =>
      let gdk := get_decoding_key kid cache fetch now
      match gdk.result with
      | .error e => ⟨.error e, gdk.cache, gdk.refreshes⟩
      | .ok decoding_key =>
          match decodeGoogle credential decoding_key googleValidation now with
          | .error e => ⟨.error e, gdk.cache, gdk.refreshes⟩
          | .ok google_claims =>
              if google_claims.email_verified = some false then
                ⟨.error (.internal "Google account email is not verified"),
                 gdk.cache, gdk.refreshes⟩
              else if google_claims.email = none then
                ⟨.error (.internal "Google credential is missing email"),
                 gdk.cache, gdk.refreshes⟩
              else
                let claims : Claims :=
                  { iat := now, exp := now + 3600,
                    sub := some google_claims.sub,
                    email := google_claims.email,
                    name := google_claims.name }
                let session_token := issue_token claims
                if audit then
                  ⟨.ok (SessionResponse.from_claims session_token claims),
                   gdk.cache, gdk.refreshes⟩
                else ⟨.error (.internal "io"), gdk.cache, gdk.refreshes⟩

/-! ### Concrete example inputs used by witnesses and counterexamples -/

/-- A JWK entry that survives the refresh filter. -/
def jwkA : GoogleJwk := ⟨"a", "someN", "AQAB", some "RS256", some "RSA"⟩

/-- An RSA entry with a non-accepted algorithm tag. -/
def jwkB : GoogleJwk := ⟨"b", "otherN", "AQAB", some "RS384", some "RSA"⟩

/-- A surviving entry whose modulus is not valid base64url. -/
def jwkBad : GoogleJwk := ⟨"c", "???", "AQAB", some "RS256", some "RSA"⟩

/-- The key built from `jwkA`. -/
def keyA : DecodingKey := ⟨"someN", "AQAB"⟩

/-- A fetch outcome whose max-age is zero and whose body carries one
surviving key under kid `k1`. -/
def fetchZero : FetchOutcome :=
  .response (some "max-age=0") (some ⟨[⟨"k1", "someN", "AQAB", some "RS256", some "RSA"⟩]⟩)

/-- The two-key JWK set of the spec's concrete refresh scenario. -/
def jwksW : GoogleJwkSet := ⟨[jwkA, jwkB]⟩

/-- A JWK set containing a surviving malformed entry. -/
def jwksBad : GoogleJwkSet := ⟨[jwkA, jwkBad]⟩

/-- An arbitrary pre-existing cache state. -/
def cacheW : GoogleCertCache := ⟨[("old", ⟨"oldN", "AQAB"⟩)], some 40⟩

/-- The cache produced by a successful refresh on `jwksW` at instant 50 with
`max-age=120`. -/
def cacheW' : GoogleCertCache := ⟨[("a", keyA)], some 170⟩

/-- A fresh cache holding `keyA` under kid `k1`. -/
def cacheF : GoogleCertCache := ⟨[("k1", keyA)], some 1000⟩

/-- An identity token that passes every check of the login handler at instant
100 against `cacheF`. -/
def tokW : IdToken :=
  { header_alg := .RS256, header_kid := some "k1", signer := keyA,
    aud := some GOOGLE_SSO_CLIENT_ID, iss := some "accounts.google.com",
    exp := some 500,
    payload := ⟨some "user1", some "u@example.com", some true, some "User One"⟩ }

/-! ### Helper lemmas -/

/-- Session round trip: decoding a token issued from `c` yields `c`. -/
theorem sessionDecode_issue (c : Claims) : sessionDecode (issue_token c) = some c := by
  cases c
  rfl

/-- Lookup after insert: the inserted binding shadows, other keys are
unchanged. -/
theorem KeyMap.lookup_insert (m : KeyMap) (kid kid' : String) (v : DecodingKey) :
    (m.insert kid v).lookup kid' = if kid = kid' then some v else m.lookup kid' := by
  induction m with
  | nil => simp [KeyMap.insert, KeyMap.lookup]
  | cons hd tl ih =>
      obtain ⟨k, v'⟩ := hd
      by_cases hk : k = kid
      · subst hk
        simp only [KeyMap.insert, KeyMap.lookup, if_pos rfl]
        by_cases h1 : k = kid' <;> simp [h1]
      · simp only [KeyMap.insert, KeyMap.lookup, if_neg hk, ih]
        by_cases h1 : kid = kid'
        · subst h1
          simp [if_neg hk]
        · simp [h1]

/-- Domain of the key map built by the refresh loop: a kid is bound iff it
was bound in the accumulator or appears on a surviving entry. -/
theorem buildKeysAux_lookup_isSome (l : List GoogleJwk) (acc m : KeyMap)
    (h : buildKeysAux acc l = .ok m) (kid : String) :
    (m.lookup kid).isSome ↔
      ((acc.lookup kid).isSome ∨
        ∃ jwk ∈ l, jwk.kid = kid ∧ jwk.kty = some "RSA" ∧ jwk.alg = some "RS256") := by
  induction l generalizing acc with
  | nil =>
      simp only [buildKeysAux, Except.ok.injEq] at h
      subst h
      simp
  | cons jwk rest ih =>
      simp only [buildKeysAux] at h
      by_cases hkty : jwk.kty = some "RSA"
      · by_cases halg : jwk.alg = some "RS256"
        · simp only [hkty, halg, ne_eq, not_true_eq_false, if_false] at h
          rcases hfr : from_rsa_components jwk.n jwk.e with _ | key
          · rw [hfr] at h
            exact absurd h (by simp)
          · rw [hfr] at h
            rw [ih _ h]
            constructor
            · rintro (hacc | hrest)
              · rw [KeyMap.lookup_insert] at hacc
                by_cases hk : jwk.kid = kid
                · exact Or.inr ⟨jwk, List.mem_cons_self .., hk, hkty, halg⟩
                · rw [if_neg hk] at hacc
                  exact Or.inl hacc
              · obtain ⟨j, hj, hrest'⟩ := hrest
                exact Or.inr ⟨j, List.mem_cons_of_mem _ hj, hrest'⟩
            · rintro (hacc | ⟨j, hj, hjkid, hjkty, hjalg⟩)
              · left
                rw [KeyMap.lookup_insert]
                by_cases hk : jwk.kid = kid
                · simp [hk]
                · rwa [if_neg hk]
              · rcases List.mem_cons.mp hj with rfl | hj'
                · left
                  rw [KeyMap.lookup_insert, if_pos hjkid]
                  simp
                · exact Or.inr ⟨j, hj', hjkid, hjkty, hjalg⟩
        · simp only [hkty, halg, ne_eq, not_true_eq_false, if_false, if_true,
            not_false_eq_true] at h
          rw [ih _ h]
          constructor
          · rintro (hacc | ⟨j, hj, hrest'⟩)
            · exact Or.inl hacc
            · exact Or.inr ⟨j, List.mem_cons_of_mem _ hj, hrest'⟩
          · rintro (hacc | ⟨j, hj, hjkid, hjkty, hjalg⟩)
            · exact Or.inl hacc
            · rcases List.mem_cons.mp hj with rfl | hj'
              · exact absurd hjalg halg
              · exact Or.inr ⟨j, hj', hjkid, hjkty, hjalg⟩
      · simp only [hkty, ne_eq, not_false_eq_true, if_true] at h
        rw [ih _ h]
        constructor
        · rintro (hacc | ⟨j, hj, hrest'⟩)
          · exact Or.inl hacc
          · exact Or.inr ⟨j, List.mem_cons_of_mem _ hj, hrest'⟩
        · rintro (hacc | ⟨j, hj, hjkid, hjkty, hjalg⟩)
          · exact Or.inl hacc
          · rcases List.mem_cons.mp hj with rfl | hj'
            · exact absurd hjkty hkty
            · exact Or.inr ⟨j, hj', hjkid, hjkty, hjalg⟩

/-- Provenance of the key map built by the refresh loop: every bound key
comes from the accumulator or was built from a surviving entry. -/
theorem buildKeysAux_lookup_eq (l : List GoogleJwk) (acc m : KeyMap)
    (h : buildKeysAux acc l = .ok m) (kid : String) (k : DecodingKey)
    (hl : m.lookup kid = some k) :
    acc.lookup kid = some k ∨
      ∃ jwk ∈ l, jwk.kid = kid ∧ jwk.kty = some "RSA" ∧ jwk.alg = some "RS256" ∧
        from_rsa_components jwk.n jwk.e = some k := by
  induction l generalizing acc with
  | nil =>
      simp only [buildKeysAux, Except.ok.injEq] at h
      subst h
      exact Or.inl hl
  | cons jwk rest ih =>
      simp only [buildKeysAux] at h
      by_cases hkty : jwk.kty = some "RSA"
      · by_cases halg : jwk.alg = some "RS256"
        · simp only [hkty, halg, ne_eq, not_true_eq_false, if_false] at h
          rcases hfr : from_rsa_components jwk.n jwk.e with _ | key
          · rw [hfr] at h
            exact absurd h (by simp)
          · rw [hfr] at h
            rcases ih _ h with hacc | ⟨j, hj, hrest'⟩
            · rw [KeyMap.lookup_insert] at hacc
              by_cases hk : jwk.kid = kid
              · rw [if_pos hk] at hacc
                cases hacc
                exact Or.inr ⟨jwk, List.mem_cons_self .., hk, hkty, halg, hfr⟩
              · rw [if_neg hk] at hacc
                exact Or.inl hacc
            · exact Or.inr ⟨j, List.mem_cons_of_mem _ hj, hrest'⟩
        · simp only [hkty, halg, ne_eq, not_true_eq_false, if_false, if_true,
            not_false_eq_true] at h
          rcases ih _ h with hacc | ⟨j, hj, hrest'⟩
          · exact Or.inl hacc
          · exact Or.inr ⟨j, List.mem_cons_of_mem _ hj, hrest'⟩
      · simp only [hkty, ne_eq, not_false_eq_true, if_true] at h
        rcases ih _ h with hacc | ⟨j, hj, hrest'⟩
        · exact Or.inl hacc
        · exact Or.inr ⟨j, List.mem_cons_of_mem _ hj, hrest'⟩

/-- A surviving entry with a malformed component pair fails the whole key
build with the library error. -/
theorem buildKeysAux_error_of_malformed (l : List GoogleJwk) (acc : KeyMap)
    (h : ∃ jwk ∈ l, jwk.kty = some "RSA" ∧ jwk.alg = some "RS256" ∧
      from_rsa_components jwk.n jwk.e = none) :
    buildKeysAux acc l = .error ServerError.jwt := by
  induction l generalizing acc with
  | nil => simp at h
  | cons jwk rest ih =>
      obtain ⟨j, hj, hjkty, hjalg, hjfr⟩ := h
      simp only [buildKeysAux]
      rcases List.mem_cons.mp hj with rfl | hj'
      · simp only [hjkty, hjalg, ne_eq, not_true_eq_false, if_false, hjfr]
      · by_cases hkty : jwk.kty = some "RSA"
        · by_cases halg : jwk.alg = some "RS256"
          · simp only [hkty, halg, ne_eq, not_true_eq_false, if_false]
            rcases hfr : from_rsa_components jwk.n jwk.e with _ | key
            · rfl
            · exact ih _ ⟨j, hj', hjkty, hjalg, hjfr⟩
          · simp only [hkty, halg, ne_eq, not_true_eq_false, if_false, if_true,
              not_false_eq_true]
            exact ih _ ⟨j, hj', hjkty, hjalg, hjfr⟩
        · simp only [hkty, ne_eq, not_false_eq_true, if_true]
          exact ih _ ⟨j, hj', hjkty, hjalg, hjfr⟩

/-- Shape of the cache installed by a successful refresh: the deadline is
`now + ttl` for the computed TTL and the mapping is the freshly built one. -/
theorem refresh_ok_shape (fetch : FetchOutcome) (cache c' : GoogleCertCache) (now : Nat)
    (u : Unit) (h : refresh_google_keys fetch cache now = (.ok u, c')) :
    ∃ cc jwks keys, fetch = .response cc (some jwks) ∧
      buildKeysAux [] jwks.keys = .ok keys ∧ c'.keys = keys ∧
      c'.expires_at = some (now + (cache_max_age cc).getD GOOGLE_CERTS_FALLBACK_TTL) := by
  cases fetch with
  | transportError => exact absurd h (by simp [refresh_google_keys])
  | response cc body =>
      cases body with
      | none => exact absurd h (by simp [refresh_google_keys])
      | some jwks =>
          simp only [refresh_google_keys] at h
          split at h
          next e hb => exact absurd h (by simp [Prod.ext_iff])
          next keys hb =>
            rw [Prod.mk.injEq] at h
            refine ⟨cc, jwks, keys, rfl, hb, ?_, ?_⟩
            · rw [← h.2]
            · rw [← h.2]

/-- What a passing registered-claim validation under the handler's fixed
policy pins down: the audience is the configured client id and the issuer is
one of the two accepted strings. -/
theorem validateRegistered_google_spec (t : IdToken) (now : Nat)
    (h : validateRegistered t googleValidation now = true) :
    t.aud = some GOOGLE_SSO_CLIENT_ID ∧
      (t.iss = some "https://accounts.google.com" ∨ t.iss = some "accounts.google.com") := by
  simp only [validateRegistered, googleValidation, Validation.new, Bool.and_eq_true] at h
  obtain ⟨⟨_, haud⟩, hiss⟩ := h
  constructor
  · split at haud
    next a ha =>
      rw [ha]
      have hmem : a ∈ [GOOGLE_SSO_CLIENT_ID] := of_decide_eq_true haud
      simp only [List.mem_singleton] at hmem
      rw [hmem]
    next ha => simp at haud
  · split at hiss
    next i hi =>
      rw [hi]
      have hmem : i ∈ googleIssuers := of_decide_eq_true hiss
      simp only [googleIssuers, List.mem_cons, List.mem_singleton,
        List.not_mem_nil, or_false] at hmem
      rcases hmem with h1 | h2
      · exact Or.inl (by rw [h1])
      · exact Or.inr (by rw [h2])
    next hi => simp at hiss

/-- Under the handler's fixed validation, a token with a wrong algorithm,
wrong audience, or unaccepted issuer never decodes successfully. -/
theorem decodeGoogle_policy_reject (t : IdToken) (key : DecodingKey) (now : Nat)
    (h : t.header_alg ≠ Algorithm.RS256 ∨ t.aud ≠ some GOOGLE_SSO_CLIENT_ID ∨
      (t.iss ≠ some "https://accounts.google.com" ∧ t.iss ≠ some "accounts.google.com")) :
    ∀ claims, decodeGoogle t key googleValidation now ≠ .ok claims := by
  intro claims hok
  simp only [decodeGoogle] at hok
  split at hok
  next halg =>
    split at hok
    next hsig =>
      split at hok
      next gclaims hdes =>
        split at hok
        next hval =>
          have hspec := validateRegistered_google_spec t now hval
          have halg' : t.header_alg = Algorithm.RS256 := by
            simpa [googleValidation, Validation.new] using halg
          rcases h with h | h | h
          · exact h halg'
          · exact h hspec.1
          · rcases hspec.2 with h2 | h2
            · exact h.1 h2
            · exact h.2 h2
        next hval => exact absurd hok (by simp)
      next hdes => exact absurd hok (by simp)
    next hsig => exact absurd hok (by simp)
  next halg => exact absurd hok (by simp)

/-! ### Claim theorems -/

/-- C1: for every `SessionClaims` value and every time `now`, verifying a
token produced by `issue` over those claims returns exactly the original
claims iff `claims.iat < now` and `claims.exp > now` (both strict, so a token
presented at exactly its issue or expiry time is rejected), and returns
nothing otherwise. -/
theorem verify_issue_window (c : Claims) (now : Nat) :
    verify (issue_token c) now = if c.iat < now ∧ c.exp > now then some c else none := by
  cases c
  rfl

/-- C3: renewal (`tick`) on a token that verifies at `now` with claims `C`
answers with a new token whose decoded claims have `iat = now`,
`exp = now + 3600` and the `sub`/`email`/`name` of `C`; on a token that fails
`verify` it answers 403 and produces no token. -/
theorem tick_renews_window (t : Token) (now : Nat) :
    (∀ c, verify t now = some c →
      ∃ resp, tick_handler t now = some resp ∧
        sessionDecode resp.token = some ⟨now, now + 3600, c.sub, c.email, c.name⟩) ∧
    (verify t now = none → tick_handler t now = none) := by
  constructor
  · intro c hc
    refine ⟨_, by rw [tick_handler, hc], ?_⟩
    simp [SessionResponse.from_claims, sessionDecode_issue]
  · intro hc
    rw [tick_handler, hc]

/-- C3 witness: issuing at window `[100, 200]` and renewing at 150 produces a
token decoding to the same optional fields with the fresh window, and
renewing a malformed token is refused. -/
theorem tick_renews_window_witness :
    (∃ resp,
      tick_handler (issue_token ⟨100, 200, some "s", some "e", some "n"⟩) 150 = some resp ∧
        sessionDecode resp.token = some ⟨150, 150 + 3600, some "s", some "e", some "n"⟩) ∧
    tick_handler Token.malformed 150 = none := by
  constructor
  · exact (tick_renews_window (issue_token ⟨100, 200, some "s", some "e", some "n"⟩) 150).1
      ⟨100, 200, some "s", some "e", some "n"⟩ (by decide)
  · exact (tick_renews_window Token.malformed 150).2 (by decide)

/-- C10: a MAC-valid session token whose payload lacks `iat` or `exp` fails
verification outright, while one lacking `sub`, `email` or `name` still
verifies (inside its window) with those fields returned as absent. -/
theorem verify_payload_fields (p : SessionPayload) (now : Nat) :
    ((p.iat = none ∨ p.exp = none) → verify (.signed p) now = none) ∧
    (∀ i e, p.iat = some i → p.exp = some e →
      verify (.signed p) now =
        if i < now ∧ e > now then some ⟨i, e, p.sub, p.email, p.name⟩ else none) := by
  constructor
  · rintro (hi | he)
    · rw [verify, sessionDecode, deserializeClaims, hi]
    · rcases hi : p.iat with _ | i
      · rw [verify, sessionDecode, deserializeClaims, hi]
      · rw [verify, sessionDecode, deserializeClaims, hi, he]
  · intro i e hi he
    rw [verify, sessionDecode, deserializeClaims, hi, he]

/-- C10 witness: a payload missing `iat` is rejected; a payload with the
window fields but no `sub`/`email`/`name` verifies to claims with all three
absent. -/
theorem verify_payload_fields_witness :
    verify (.signed ⟨none, some 10, some "s", none, none⟩) 5 = none ∧
    verify (.signed ⟨some 1, some 10, none, none, none⟩) 5 =
      if 1 < 5 ∧ 10 > 5 then some ⟨1, 10, none, none, none⟩ else none := by
  constructor
  · exact (verify_payload_fields ⟨none, some 10, some "s", none, none⟩ 5).1 (Or.inl rfl)
  · exact (verify_payload_fields ⟨some 1, some 10, none, none, none⟩ 5).2 1 10 rfl rfl

/-- C4: after a successful refresh on a decoded JWKS response, the installed
mapping binds exactly the kids of entries whose `kty` is RSA and whose `alg`
is RS256 (non-matching entries are silently skipped), every bound key was
built from such an entry's modulus/exponent pair, and the deadline is `now`
plus the parseable `Cache-Control` max-age when present, else `now + 3600`. -/
theorem refresh_replaces_cache (cc : Option String) (jwks : GoogleJwkSet)
    (cache c' : GoogleCertCache) (now : Nat)
    (h : refresh_google_keys (.response cc (some jwks)) cache now = (.ok (), c')) :
    (∀ kid, (c'.keys.lookup kid).isSome ↔
      ∃ jwk ∈ jwks.keys, jwk.kid = kid ∧ jwk.kty = some "RSA" ∧ jwk.alg = some "RS256") ∧
    (∀ kid k, c'.keys.lookup kid = some k →
      ∃ jwk ∈ jwks.keys, jwk.kid = kid ∧ jwk.kty = some "RSA" ∧ jwk.alg = some "RS256" ∧
        from_rsa_components jwk.n jwk.e = some k) ∧
    c'.expires_at = some (now + (cache_max_age cc).getD 3600) := by
  obtain ⟨cc', jwks', keys, hfe, hb, hkeys, hexp⟩ :=
    refresh_ok_shape (.response cc (some jwks)) cache c' now () h
  obtain ⟨hcc, hjw⟩ : cc = cc' ∧ jwks = jwks' := by
    cases hfe
    exact ⟨rfl, rfl⟩
  subst hcc
  subst hjw
  refine ⟨?_, ?_, hexp⟩
  · intro kid
    rw [hkeys, buildKeysAux_lookup_isSome jwks.keys [] keys hb kid]
    simp [KeyMap.lookup]
  · intro kid k hl
    rw [hkeys] at hl
    rcases buildKeysAux_lookup_eq jwks.keys [] keys hb kid k hl with hacc | hsrc
    · exact absurd hacc (by simp [KeyMap.lookup])
    · exact hsrc

/-- C4 witness: the spec's concrete scenario — `Cache-Control: max-age=120`
with one RSA/RS256 entry and one RSA/RS384 entry — yields a cache binding
exactly the first entry's kid and a deadline 120 seconds out. -/
theorem refresh_replaces_cache_witness :
    (cacheW'.keys.lookup "a").isSome ∧ cacheW'.keys.lookup "b" = none ∧
    cacheW'.expires_at = some (50 + 120) := by
  have h := refresh_replaces_cache (some "max-age=120") jwksW cacheW cacheW' 50 rfl
  refine ⟨?_, by decide, h.2.2⟩
  exact (h.1 "a").2 ⟨jwkA, by decide, rfl, rfl, rfl⟩

/-- C5: a refresh that errors — transport failure, body-decode failure, or a
malformed component pair on a surviving RSA/RS256 entry (which fails the
whole refresh rather than skipping the entry) — leaves the cache's mapping
and deadline exactly as they were. -/
theorem refresh_error_preserves_cache (fetch : FetchOutcome) (cache : GoogleCertCache)
    (now : Nat) :
    (∀ e, (refresh_google_keys fetch cache now).1 = .error e →
      (refresh_google_keys fetch cache now).2 = cache) ∧
    (∀ cc jwks, fetch = .response cc (some jwks) →
      (∃ jwk ∈ jwks.keys, jwk.kty = some "RSA" ∧ jwk.alg = some "RS256" ∧
        from_rsa_components jwk.n jwk.e = none) →
      (refresh_google_keys fetch cache now).1 = .error ServerError.jwt) := by
  constructor
  · intro e he
    cases fetch with
    | transportError => rfl
    | response cc body =>
        cases body with
        | none => rfl
        | some jwks =>
            simp only [refresh_google_keys] at he ⊢
            split at he
            next e' hb => rfl
            next keys hb => exact absurd he (by simp)
  · rintro cc jwks rfl hmal
    simp only [refresh_google_keys]
    rw [buildKeysAux_error_of_malformed jwks.keys [] hmal]

/-- C5 witness: a transport failure leaves the pre-existing cache intact, and
a response whose surviving entry `jwkBad` has a malformed modulus fails the
whole refresh with the library error. -/
theorem refresh_error_preserves_cache_witness :
    (refresh_google_keys .transportError cacheW 5).2 = cacheW ∧
    (refresh_google_keys (.response none (some jwksBad)) cacheW 5).1 =
      .error ServerError.jwt := by
  constructor
  · exact (refresh_error_preserves_cache .transportError cacheW 5).1 .reqwest rfl
  · exact (refresh_error_preserves_cache (.response none (some jwksBad)) cacheW 5).2
      none jwksBad rfl ⟨jwkBad, by decide, by decide, by decide, by decide⟩

/-- C2 counterexample: it is not the case that every key served by key
resolution is read under a deadline strictly in the future. With an empty
cache and a JWKS response carrying `Cache-Control: max-age=0`, the refresh
installs the deadline `now + 0 = now`; the second lookup — which performs no
freshness re-check — still serves the key, so the cache is already stale at
the moment the key is read. -/
theorem get_decoding_key_stale_serve_counterexample :
    ¬ (∀ (kid : String) (cache : GoogleCertCache) (fetch : FetchOutcome) (now : Nat)
        (k : DecodingKey),
        (get_decoding_key kid cache fetch now).result = .ok k →
        ∃ d, (get_decoding_key kid cache fetch now).cache.expires_at = some d ∧ now < d) := by
  intro hclaim
  obtain ⟨d, hd, hlt⟩ := hclaim "k1" ⟨[], none⟩ fetchZero 100 keyA rfl
  have hd' : (some 100 : Option Nat) = some d := hd
  cases hd'
  exact absurd hlt (by decide)

/-- C2 amended: whenever key resolution returns a key, the cache deadline at
the moment of the read is present and is at least the current instant; it is
strictly in the future whenever the key came from the first,
freshness-checked lookup (no refresh performed), but after a refresh whose
computed TTL is zero the second lookup serves a key at a deadline exactly
equal to `now`, the second lookup performing no freshness re-check. -/
theorem get_decoding_key_deadline (kid : String) (cache : GoogleCertCache)
    (fetch : FetchOutcome) (now : Nat) (k : DecodingKey)
    (h : (get_decoding_key kid cache fetch now).result = .ok k) :
    ∃ d, (get_decoding_key kid cache fetch now).cache.expires_at = some d ∧ now ≤ d ∧
      ((get_decoding_key kid cache fetch now).refreshes = 0 → now < d) := by
  rcases hser : (if cache.is_fresh now then cache.keys.lookup kid else none) with _ | key
  · simp only [get_decoding_key, hser]
    rcases hR : refresh_google_keys fetch cache now with ⟨res, cache'⟩
    cases res with
    | error e =>
        simp only [get_decoding_key, hser, hR] at h
        exact absurd h (by simp)
    | ok u =>
        obtain ⟨cc, jwks, keys, hfe, hb, hkeys, hexp⟩ :=
          refresh_ok_shape fetch cache cache' now u hR
        rcases hL : cache'.keys.lookup kid with _ | key'
        · simp only [get_decoding_key, hser, hR, hL] at h
          exact absurd h (by simp)
        · refine ⟨now + (cache_max_age cc).getD GOOGLE_CERTS_FALLBACK_TTL, ?_, ?_, ?_⟩
          · simp only [hR, hL]
            exact hexp
          · exact Nat.le_add_right ..
          · intro h0
            simp only [hR, hL] at h0
            exact absurd h0 (by simp)
  · have hfresh : cache.is_fresh now = true := by
      by_contra hf
      rw [if_neg (by simpa using hf)] at hser
      exact absurd hser (by simp)
    rcases hd : cache.expires_at with _ | d
    · rw [GoogleCertCache.is_fresh, hd] at hfresh
      exact absurd hfresh (by simp)
    · refine ⟨d, ?_, ?_, ?_⟩
      · simp only [get_decoding_key, hser]
        exact hd
      · rw [GoogleCertCache.is_fresh, hd] at hfresh
        exact Nat.le_of_lt (of_decide_eq_true hfresh)
      · intro _
        rw [GoogleCertCache.is_fresh, hd] at hfresh
        exact of_decide_eq_true hfresh

/-- C2 amended witness: with a fresh cache holding `k1`, the first lookup
serves the key at a strictly-future deadline; the theorem applied at instant
100 against `cacheF` yields its deadline bound. -/
theorem get_decoding_key_deadline_witness :
    ∃ d, (get_decoding_key "k1" cacheF .transportError 100).cache.expires_at = some d ∧
      100 ≤ d ∧
      ((get_decoding_key "k1" cacheF .transportError 100).refreshes = 0 → 100 < d) :=
  get_decoding_key_deadline "k1" cacheF .transportError 100 keyA rfl

/-- C6: the login handler's fixed verification policy — a credential whose
declared algorithm is not RS256 fails regardless of signature validity, one
whose audience is not the statically-configured client id fails, and one
whose issuer is neither accepted Google issuer string fails; in every such
case no session token is issued. -/
theorem google_policy_rejects (t : IdToken) (cache : GoogleCertCache)
    (fetch : FetchOutcome) (now : Nat) (audit : Bool)
    (h : t.header_alg ≠ Algorithm.RS256 ∨ t.aud ≠ some GOOGLE_SSO_CLIENT_ID ∨
      (t.iss ≠ some "https://accounts.google.com" ∧ t.iss ≠ some "accounts.google.com")) :
    ∃ e, (googleHandler t cache fetch now audit).result = .error e := by
  rcases hkid : t.header_kid with _ | kid
  · exact ⟨.internal "Google credential is missing kid", by simp [googleHandler, hkid]⟩
  · simp only [googleHandler, hkid]
    rcases hres : (get_decoding_key kid cache fetch now).result with e | key
    · exact ⟨e, by simp [hres]⟩
    · rcases hdec : decodeGoogle t key googleValidation now with e | gc
      · exact ⟨e, by simp [hres, hdec]⟩
      · exact absurd hdec (decodeGoogle_policy_reject t key now h gc)

/-- C6 witness: a credential identical to the fully-valid `tokW` except for a
declared HS256 algorithm is rejected by the handler. -/
theorem google_policy_rejects_witness :
    ∃ e, (googleHandler { tokW with header_alg := .HS256 } cacheF fetchZero 100 true).result =
      .error e :=
  google_policy_rejects { tokW with header_alg := .HS256 } cacheF fetchZero 100 true
    (Or.inl (by decide))

/-- C7: when the credential's declared kid is not bound in the cache, key
resolution performs exactly one refresh attempt; and when that refresh
succeeds but the kid is still unbound, the handler fails with the
unknown-signing-key error, issuing no session token. -/
theorem unknown_kid_single_refresh (t : IdToken) (kid : String) (cache : GoogleCertCache)
    (fetch : FetchOutcome) (now : Nat) (audit : Bool)
    (hkid : t.header_kid = some kid) (habsent : cache.keys.lookup kid = none) :
    (googleHandler t cache fetch now audit).refreshes = 1 ∧
    ((refresh_google_keys fetch cache now).1 = .ok () →
      (refresh_google_keys fetch cache now).2.keys.lookup kid = none →
      (googleHandler t cache fetch now audit).result =
        .error (.internal ("Unable to find Google signing key for kid " ++ kid))) := by
  have hser : (if cache.is_fresh now then cache.keys.lookup kid else none) = none := by
    cases cache.is_fresh now <;> simp [habsent]
  rcases hR : refresh_google_keys fetch cache now with ⟨res, cache'⟩
  cases res with
  | error e =>
      constructor
      · simp only [googleHandler, hkid, get_decoding_key, hser, hR]
      · intro hok
        exact absurd hok (by simp)
  | ok u =>
      rcases hL : cache'.keys.lookup kid with _ | key
      · constructor
        · simp only [googleHandler, hkid, get_decoding_key, hser, hR, hL]
        · intro _ _
          simp only [googleHandler, hkid, get_decoding_key, hser, hR, hL]
      · constructor
        · simp only [googleHandler, hkid, get_decoding_key, hser, hR, hL]
          rcases hdec : decodeGoogle t key googleValidation now with e | gc
          · simp [hdec]
          · simp only [hdec]
            split
            · rfl
            · split
              · rfl
              · split <;> rfl
        · intro _ habsent'
          exact absurd habsent' (by simp)

/-- C7 witness: against an empty cache, resolving `tokW` (kid `k1`) with a
fetch returning an empty key set performs exactly one refresh and fails with
the unknown-signing-key error for `k1`. -/
theorem unknown_kid_single_refresh_witness :
    (googleHandler tokW ⟨[], none⟩ (.response none (some ⟨[]⟩)) 100 true).refreshes = 1 ∧
    (googleHandler tokW ⟨[], none⟩ (.response none (some ⟨[]⟩)) 100 true).result =
      .error (.internal ("Unable to find Google signing key for kid " ++ "k1")) := by
  have h := unknown_kid_single_refresh tokW "k1" ⟨[], none⟩ (.response none (some ⟨[]⟩))
    100 true rfl rfl
  exact ⟨h.1, h.2 rfl rfl⟩

/-- C8: for a credential that passes all cryptographic checks — kid resolved,
signature, algorithm, audience, issuer and expiry valid — the handler fails
with the unverified-email error when `email_verified` is explicitly `false`,
and with the missing-email error when no email claim is present; in both
cases no session token is issued. -/
theorem email_checks_after_crypto (t : IdToken) (kid : String) (cache : GoogleCertCache)
    (fetch : FetchOutcome) (now : Nat) (audit : Bool) (key : DecodingKey) (gc : GoogleClaims)
    (hkid : t.header_kid = some kid)
    (hkey : (get_decoding_key kid cache fetch now).result = .ok key)
    (hdec : decodeGoogle t key googleValidation now = .ok gc) :
    (gc.email_verified = some false →
      (googleHandler t cache fetch now audit).result =
        .error (.internal "Google account email is not verified")) ∧
    (gc.email_verified ≠ some false → gc.email = none →
      (googleHandler t cache fetch now audit).result =
        .error (.internal "Google credential is missing email")) := by
  constructor
  · intro hv
    simp only [googleHandler, hkid, hkey, hdec, hv]
    rfl
  · intro hv hm
    simp only [googleHandler, hkid, hkey, hdec]
    rw [if_neg hv, if_pos hm]

/-- C8 witness: a credential differing from the fully-valid `tokW` only in an
explicit `email_verified: false` is rejected with the unverified-email error,
and one differing only in a missing email claim is rejected with the
missing-email error. -/
theorem email_checks_after_crypto_witness :
    (googleHandler { tokW with payload := ⟨some "user1", some "u@example.com", some false,
        some "User One"⟩ } cacheF .transportError 100 true).result =
      .error (.internal "Google account email is not verified") ∧
    (googleHandler { tokW with payload := ⟨some "user1", none, some true, some "User One"⟩ }
        cacheF .transportError 100 true).result =
      .error (.internal "Google credential is missing email") := by
  constructor
  · exact (email_checks_after_crypto
      { tokW with payload := ⟨some "user1", some "u@example.com", some false, some "User One"⟩ }
      "k1" cacheF .transportError 100 true keyA
      ⟨"user1", some "u@example.com", some false, some "User One"⟩ rfl rfl rfl).1 rfl
  · exact (email_checks_after_crypto
      { tokW with payload := ⟨some "user1", none, some true, some "User One"⟩ }
      "k1" cacheF .transportError 100 true keyA
      ⟨"user1", none, some true, some "User One"⟩ rfl rfl rfl).2 (by simp) rfl

/-- C9: every session-claims value at the moment it is produced — whether by
the login handler or by renewal — has `iat` equal to that operation's current
time and `exp = iat + 3600`. -/
theorem produced_claims_window (t : IdToken) (cache : GoogleCertCache)
    (fetch : FetchOutcome) (now : Nat) (audit : Bool) (tok : Token) (now' : Nat) :
    (∀ resp, (googleHandler t cache fetch now audit).result = .ok resp →
      ∃ c, sessionDecode resp.token = some c ∧ c.iat = now ∧ c.exp = c.iat + 3600) ∧
    (∀ resp, tick_handler tok now' = some resp →
      ∃ c, sessionDecode resp.token = some c ∧ c.iat = now' ∧ c.exp = c.iat + 3600) := by
  constructor
  · intro resp h
    simp only [googleHandler] at h
    split at h
    · exact absurd h (by simp)
    · split at h
      · exact absurd h (by simp)
      · split at h
        · exact absurd h (by simp)
        · split at h
          · exact absurd h (by simp)
          · split at h
            · exact absurd h (by simp)
            · split at h
              · simp only [Except.ok.injEq] at h
                subst h
                exact ⟨_, sessionDecode_issue _, rfl, rfl⟩
              · exact absurd h (by simp)
  · intro resp h
    simp only [tick_handler] at h
    split at h
    next claims hv =>
      simp only [Option.some.injEq] at h
      subst h
      exact ⟨_, sessionDecode_issue _, rfl, rfl⟩
    next hv => exact absurd h (by simp)

/-- C9 witness: the fully-valid login of `tokW` at time 100 yields a token
whose claims are exactly `iat = 100`, `exp = 3700`, and renewing a session
token at time 150 yields claims `iat = 150`, `exp = 3750`. -/
theorem produced_claims_window_witness :
    (∃ c, sessionDecode (SessionResponse.from_claims
        (issue_token ⟨100, 3700, some "user1", some "u@example.com", some "User One"⟩)
        ⟨100, 3700, some "user1", some "u@example.com", some "User One"⟩).token = some c ∧
      c.iat = 100 ∧ c.exp = c.iat + 3600) ∧
    (∃ c, sessionDecode (SessionResponse.from_claims
        (issue_token ⟨150, 3750, some "s", some "e", some "n"⟩)
        ⟨150, 3750, some "s", some "e", some "n"⟩).token = some c ∧
      c.iat = 150 ∧ c.exp = c.iat + 3600) := by
  constructor
  · exact (produced_claims_window tokW cacheF .transportError 100 true
      Token.malformed 0).1 _ rfl
  · exact (produced_claims_window tokW cacheF .transportError 100 true
      (issue_token ⟨100, 200, some "s", some "e", some "n"⟩) 150).2 _ rfl

end Mercury
